import Mathlib

set_option maxRecDepth 8000

/-! Shallow embedding of the voice-server repository: configuration constants
(config.py), the speech segmenter (vad_detector.py), the transcription
dispatcher (transcriber.py) and the conversation state machine
(state_machine.py), together with theorems settling the spec claims. -/

/-! Configuration constants, translated from config.py.  Python's
`int(a / b)` on positive operands truncates toward zero, which is Nat
division. -/

def SAMPLE_RATE : Nat := 16000

def VAD_CHUNK_SAMPLES : Nat := 512

def VAD_CHUNK_DURATION_MS : Nat := VAD_CHUNK_SAMPLES * 1000 / SAMPLE_RATE

def VAD_MIN_SPEECH_DURATION_MS : Nat := 100

def VAD_PASSIVE_SILENCE_MS : Nat := 300

def VAD_ACTIVE_SILENCE_MS : Nat := 700

def MAX_RECORDING_DURATION_S : Nat := 30

def MAX_AUDIO_BUFFER_FRAMES : Nat :=
  MAX_RECORDING_DURATION_S * SAMPLE_RATE / VAD_CHUNK_SAMPLES

def WAKE_WORDS : List String := ["hey fox"]

def WAKE_WORD_TIMEOUT_S : Nat := 20

/-! Wake-phrase matching, translated from state_machine.py.

The source builds, for each configured phrase, the regular expression
`word1 [\s,.\-!?]* word2 [\s,.\-!?]* ...` (re.escape'd words joined by an
optional run of punctuation/whitespace) compiled with IGNORECASE, and runs
`pattern.search` on the stripped text; phrases are tried longest-first
(`sorted(WAKE_WORDS, key=len, reverse=True)`).  The embedding implements
exactly this restricted regex shape: a literal-word match is
deterministic, the only nondeterminism is how many separator characters
each gap consumes, resolved greedily (longest first) with backtracking,
and the search tries start positions left to right. -/

/-- Python's `\s` over the ASCII range (the inputs of interest are ASCII). -/
def pySpace (c : Char) : Bool :=
  c = ' ' || c = '\t' || c = '\n' || c = '\r' || c = '\x0b' || c = '\x0c'

/-- A character matched by the gap class `[\s,.\-!?]` in the source's
wake-phrase regex. -/
def pySep (c : Char) : Bool :=
  pySpace c || c = ',' || c = '.' || c = '-' || c = '!' || c = '?'

/-- Case-insensitive literal match of a word against a prefix of the text;
returns the text after the word on success.  Models `re.escape(w)` under
IGNORECASE. -/
def matchLit : List Char → List Char → Option (List Char)
  | [], s => some s
  | _ :: _, [] => none
  | p :: ps, c :: cs => if c.toLower = p.toLower then matchLit ps cs else none

/-- Length of the leading run of separator characters. -/
def countLeadSeps (s : List Char) : Nat := (s.takeWhile pySep).length

/-- Match the remaining words of a phrase, each preceded by the gap
`[\s,.\-!?]*`, against the text `s`; `j` is the number of separator
characters the current gap consumes, tried greedily from the maximum down
(regex backtracking).  Returns the text after the last word.  `fuel`
dominates the recursion depth and is chosen large enough by the caller. -/
def tryMatch (fuel : Nat) (ws : List (List Char)) (j : Nat) (s : List Char) :
    Option (List Char) :=
  match fuel with
  | 0 => none
  | f + 1 =>
    match ws with
    | [] => some s
    | w :: rest =>
      match matchLit w (s.drop j) with
      | some r =>
        match tryMatch f rest (countLeadSeps r) r with
        | some out => some out
        | none => if j = 0 then none else tryMatch f (w :: rest) (j - 1) s
      | none => if j = 0 then none else tryMatch f (w :: rest) (j - 1) s

/-- Match a whole phrase (first word anchored at the current position, no
leading gap) against the text; returns the text after the match. -/
def matchHere (fuel : Nat) (ws : List (List Char)) (s : List Char) :
    Option (List Char) :=
  match ws with
  | [] => some s
  | w :: rest =>
    match matchLit w s with
    | some r => tryMatch fuel rest (countLeadSeps r) r
    | none => none

/-- `pattern.search`: try each start position left to right, return the text
after the leftmost match. -/
def reSearch (fuel : Nat) (ws : List (List Char)) : List Char → Option (List Char)
  | [] => matchHere fuel ws []
  | c :: t =>
    match matchHere fuel ws (c :: t) with
    | some r => some r
    | none => reSearch fuel ws t

/-- Python `str.split()`: split on runs of whitespace, dropping empty parts. -/
def splitWs (s : List Char) : List (List Char) :=
  (s.foldr
    (fun c acc =>
      if pySpace c then [] :: acc
      else
        match acc with
        | [] => [[c]]
        | w :: ws => (c :: w) :: ws)
    []).filter (fun w => ! w.isEmpty)

/-- Python `str.lower()` (ASCII range). -/
def lowerList (s : List Char) : List Char := s.map Char.toLower

/-- Python `str.strip()`: drop leading and trailing whitespace. -/
def pyStrip (s : List Char) : List Char :=
  ((s.dropWhile pySpace).reverse.dropWhile pySpace).reverse

/-- `re.sub(r'^[,.\s!?]+', '', after)`: drop the leading run of the
punctuation/whitespace class (note: no hyphen in this class). -/
def dropLeadPunct (s : List Char) : List Char :=
  s.dropWhile (fun c => pySpace c || c = ',' || c = '.' || c = '!' || c = '?')

/-- Stable insertion for length-descending order: a phrase is placed before
every already-sorted phrase of smaller or equal length it precedes in the
original order. -/
def insertLenDesc (x : String) : List String → List String
  | [] => [x]
  | y :: ys => if y.length ≤ x.length then x :: y :: ys else y :: insertLenDesc x ys

/-- `sorted(wake_words, key=len, reverse=True)` (stable). -/
def sortLenDesc : List String → List String
  | [] => []
  | x :: xs => insertLenDesc x (sortLenDesc xs)

/-- `phrase.lower().split()`: the word list a phrase's regex is built from. -/
def phraseWords (phrase : String) : List (List Char) :=
  splitWs (lowerList phrase.toList)

/-- Try the compiled patterns in order (longest phrase first), returning the
text after the first phrase whose regex matches. -/
def findWake (pats : List (List (List Char))) (ts : List Char) :
    Option (List Char) :=
  match pats with
  | [] => none
  | ws :: rest =>
    match reSearch ((ws.length + 1) * (ts.length + 2)) ws ts with
    | some r => some r
    | none => findWake rest ts

/-- `StateMachine.extract_wake_word`, with the pattern list built as in
`StateMachine.__init__` from the configured wake phrases: strip the text,
try phrases longest-first, and on a match return the text after the matched
region, stripped and with a leading punctuation/whitespace run removed. -/
def extract_wake_word (wakeWords : List String) (text : String) : Bool × String :=
  let ts := pyStrip text.toList
  match findWake ((sortLenDesc wakeWords).map phraseWords) ts with
  | some r => (true, String.mk (pyStrip (dropLeadPunct (pyStrip r))))
  | none => (false, "")

/-! The speech segmenter, translated from vad_detector.py.

The external Silero classifier is abstracted as a function
`classify : List Int → Bool` over audio chunks, modelling
`speech_prob > VAD_THRESHOLD` (spec section 6: the classifier is an
external collaborator returning a per-frame probability).  Audio chunks
are lists of samples; `np.concatenate` is `List.flatten`. -/

/-- Detector state: `__init__` fields `speech_started`, `speech_frames`,
`silence_frames`, and the currently selected `min_silence_frames`. -/
structure VADDetector where
  speech_started : Bool
  speech_frames : List (List Int)
  silence_frames : Nat
  min_silence_frames : Nat
deriving DecidableEq

/-- `max(1, int(VAD_MIN_SPEECH_DURATION_MS / VAD_CHUNK_DURATION_MS))`. -/
def min_speech_frames : Nat := max 1 (VAD_MIN_SPEECH_DURATION_MS / VAD_CHUNK_DURATION_MS)

/-- `max(1, int(VAD_PASSIVE_SILENCE_MS / VAD_CHUNK_DURATION_MS))`. -/
def passive_silence_frames : Nat := max 1 (VAD_PASSIVE_SILENCE_MS / VAD_CHUNK_DURATION_MS)

/-- `max(1, int(VAD_ACTIVE_SILENCE_MS / VAD_CHUNK_DURATION_MS))`. -/
def active_silence_frames : Nat := max 1 (VAD_ACTIVE_SILENCE_MS / VAD_CHUNK_DURATION_MS)

/-- Fresh detector as left by `__init__`: empty buffer, passive mode. -/
def vadInit : VADDetector :=
  { speech_started := false, speech_frames := [], silence_frames := 0,
    min_silence_frames := passive_silence_frames }

/-- `VADDetector.reset`: clear buffer and counters (the Silero LSTM reset is
a side effect on the external classifier, outside this state). -/
def VADDetector.reset (st : VADDetector) : VADDetector :=
  { speech_started := false, speech_frames := [], silence_frames := 0,
    min_silence_frames := st.min_silence_frames }

/-- `VADDetector.process_chunk`: returns (new state, is_speech, completed
utterance).  Mirrors the source branch for branch: on speech append and
zero the silence counter, confirm once the buffer holds at least
`min_speech_frames` frames, force-emit at the buffer cap; on silence in
the confirmed state append (trailing padding), bump the counter and emit
at the current threshold; on silence while unconfirmed discard the buffer
once it exceeds `min_speech_frames`. -/
def VADDetector.process_chunk (classify : List Int → Bool) (st : VADDetector)
    (chunk : List Int) : VADDetector × Bool × Option (List Int) :=
  if classify chunk then
    if MAX_AUDIO_BUFFER_FRAMES ≤ (st.speech_frames ++ [chunk]).length then
      (st.reset, classify chunk, some (st.speech_frames ++ [chunk]).flatten)
    else
      ({ st with
          speech_started :=
            st.speech_started ||
              decide (min_speech_frames ≤ (st.speech_frames ++ [chunk]).length),
          speech_frames := st.speech_frames ++ [chunk],
          silence_frames := 0 }, classify chunk, none)
  else
    if st.speech_started then
      if st.min_silence_frames ≤ st.silence_frames + 1 then
        (st.reset, classify chunk, some (st.speech_frames ++ [chunk]).flatten)
      else
        ({ st with speech_frames := st.speech_frames ++ [chunk],
                   silence_frames := st.silence_frames + 1 }, classify chunk, none)
    else
      if min_speech_frames < st.speech_frames.length then
        ({ st with speech_frames := [] }, classify chunk, none)
      else
        (st, classify chunk, none)

/-- `VADDetector.set_mode`: select the silence threshold; unknown modes
raise ValueError. -/
def VADDetector.set_mode (m : String) (st : VADDetector) :
    Except String VADDetector :=
  if m = "passive" then
    Except.ok { st with min_silence_frames := passive_silence_frames }
  else if m = "active" then
    Except.ok { st with min_silence_frames := active_silence_frames }
  else
    Except.error (String.append "Unknown VAD mode: " m)

/-- `VADDetector.force_end_utterance`: flush any buffered audio and reset. -/
def VADDetector.force_end_utterance (st : VADDetector) :
    VADDetector × Option (List Int) :=
  if 0 < st.speech_frames.length then (st.reset, some st.speech_frames.flatten)
  else (st, none)

/-- States of the detector reachable from a fresh instance through its
public operations. -/
inductive Reachable (classify : List Int → Bool) : VADDetector → Prop where
  | init : Reachable classify vadInit
  | step (s : VADDetector) (c : List Int) :
      Reachable classify s →
      Reachable classify (VADDetector.process_chunk classify s c).1
  | mode (s s' : VADDetector) (m : String) :
      Reachable classify s → VADDetector.set_mode m s = Except.ok s' →
      Reachable classify s'
  | force (s : VADDetector) :
      Reachable classify s →
      Reachable classify (VADDetector.force_end_utterance s).1

/-- Fold a chunk trace through the detector from a fresh instance. -/
def runTrace (classify : List Int → Bool) (tr : List (List Int)) : VADDetector :=
  tr.foldl (fun st c => (VADDetector.process_chunk classify st c).1) vadInit

/-- Feed a list of chunks, collecting every emitted utterance in order. -/
def runEmits (classify : List Int → Bool) (st : VADDetector) :
    List (List Int) → VADDetector × List (List Int)
  | [] => (st, [])
  | c :: cs =>
    ((runEmits classify (VADDetector.process_chunk classify st c).1 cs).1,
     (match (VADDetector.process_chunk classify st c).2.2 with
      | some u => [u]
      | none => []) ++
       (runEmits classify (VADDetector.process_chunk classify st c).1 cs).2)

/-- The state-and-count invariant maintained by every detector operation:
while unconfirmed the buffer holds only speech-classified frames and fewer
than `min_speech_frames` of them; once confirmed the buffer holds at least
`min_speech_frames` speech-classified frames. -/
def vadInv (classify : List Int → Bool) (s : VADDetector) : Prop :=
  (s.speech_started = false →
    (∀ f ∈ s.speech_frames, classify f = true) ∧
      s.speech_frames.length < min_speech_frames) ∧
  (s.speech_started = true →
    min_speech_frames ≤ (s.speech_frames.filter classify).length)

/-! The transcription dispatcher, translated from transcriber.py.

`WhisperTranscriber.transcribe` is modelled up to the point where the
external engine is invoked: the result records either the early rejection
(`return None` before any engine work) or the exact audio and model tier
handed to `_run_whisper`, together with the safety messages printed on the
way.  Durations are computed as exact rationals; the float arithmetic of
the source cannot cross either threshold (the spacing of doubles near 0.3
and 30 is many orders of magnitude below one sample's worth of duration). -/

/-- What `transcribe` did before (or instead of) engine work. -/
inductive Dispatch where
  | rejected : Dispatch
  | engine (audio : List Int) (activeTier : Bool) : Dispatch
deriving DecidableEq

/-- Safety messages printed by `transcribe`. -/
inductive LogMsg where
  | tooShort : LogMsg
  | truncated : LogMsg
deriving DecidableEq

/-- `WhisperTranscriber.transcribe` front end: reject audio shorter than
0.3 s without touching the engine; truncate audio longer than
`MAX_RECORDING_DURATION_S` to exactly that duration, with a warning;
otherwise dispatch unchanged.  The tier flag selects the model. -/
def transcribe (audio : List Int) (active : Bool) : Dispatch × List LogMsg :=
  if ((audio.length : ℚ)) / (SAMPLE_RATE : ℚ) < 3 / 10 then
    (Dispatch.rejected, [LogMsg.tooShort])
  else if (MAX_RECORDING_DURATION_S : ℚ) < ((audio.length : ℚ)) / (SAMPLE_RATE : ℚ) then
    (Dispatch.engine (audio.take (MAX_RECORDING_DURATION_S * SAMPLE_RATE)) active,
     [LogMsg.truncated])
  else
    (Dispatch.engine audio active, [])

/-! The conversation state machine, translated from state_machine.py.

The async methods are embedded as pure functions returning the new state
and the list of events emitted through the callbacks (`on_wake`,
`on_listening`, `on_command`, `on_error` — in server.py these only send a
WebSocket message each).  The asyncio reply-timeout task is modelled by an
explicit task environment: `active_timeout_task` holds the handle the
machine stores, `nextId` generates task identities, and `cancelledIds` /
`firedIds` record which tasks have been cancelled or have run their body,
so that `task.done()` and the delivery of `CancelledError` at the
`asyncio.sleep` suspension point are explicit.  Each embedded function is
one event-loop step: spec section 5 states all state-machine processing
for a session is single-threaded/cooperative. -/

/-- `State` enum of state_machine.py. -/
inductive PyState where
  | PASSIVE : PyState
  | ACTIVE : PyState
deriving DecidableEq

/-- Outbound events, one per callback invocation. -/
inductive Event where
  | Wake : Event
  | Listening : Event
  | Command (text : String) : Event
  | Error (msg : String) : Event
deriving DecidableEq

/-- State machine state plus the task environment for its timeout task. -/
structure StateMachine where
  state : PyState
  active_timeout_task : Option Nat
  nextId : Nat
  cancelledIds : List Nat
  firedIds : List Nat
  wakeWords : List String
deriving DecidableEq

/-- Machine as left by `StateMachine.__init__`. -/
def smInit : StateMachine :=
  { state := PyState.PASSIVE, active_timeout_task := none, nextId := 0,
    cancelledIds := [], firedIds := [], wakeWords := WAKE_WORDS }

/-- `task.done()`: the task ran its body to the end or its cancellation has
been delivered. -/
def taskDone (s : StateMachine) (t : Nat) : Bool :=
  s.firedIds.contains t || s.cancelledIds.contains t

/-- `StateMachine._cancel_timeout`: cancel the stored task unless it is
already done, then drop the handle.  With no stored handle this is a
no-op, which makes cancelling twice safe. -/
def StateMachine.cancel_timeout (s : StateMachine) : StateMachine :=
  match s.active_timeout_task with
  | none => s
  | some t =>
    if taskDone s t then { s with active_timeout_task := none }
    else { s with active_timeout_task := none, cancelledIds := t :: s.cancelledIds }

/-- `StateMachine.transition_to_active`: no-op when already ACTIVE;
otherwise enter ACTIVE, emit Wake then Listening, and schedule a fresh
timeout task. -/
def StateMachine.transition_to_active (s : StateMachine) :
    StateMachine × List Event :=
  if s.state = PyState.ACTIVE then (s, [])
  else
    ({ s with state := PyState.ACTIVE, active_timeout_task := some s.nextId,
              nextId := s.nextId + 1 },
     [Event.Wake, Event.Listening])

/-- `StateMachine.transition_to_passive`: no-op when already PASSIVE;
otherwise enter PASSIVE and cancel any pending timeout.  Emits nothing. -/
def StateMachine.transition_to_passive (s : StateMachine) :
    StateMachine × List Event :=
  if s.state = PyState.PASSIVE then (s, [])
  else (StateMachine.cancel_timeout { s with state := PyState.PASSIVE }, [])

/-- `StateMachine._handle_command`: cancel the timeout first, then emit the
Command event, then return to PASSIVE. -/
def StateMachine.handle_command (text : String) (s : StateMachine) :
    StateMachine × List Event :=
  ((StateMachine.transition_to_passive (StateMachine.cancel_timeout s)).1,
   Event.Command text ::
     (StateMachine.transition_to_passive (StateMachine.cancel_timeout s)).2)

/-- `StateMachine.process_transcription`: empty text is ignored; in PASSIVE
a wake match activates and any remainder is handled inline as a command;
in ACTIVE the text is the command. -/
def StateMachine.process_transcription (text : String) (s : StateMachine) :
    StateMachine × List Event :=
  if text = "" then (s, [])
  else
    match s.state with
    | PyState.PASSIVE =>
      if (extract_wake_word s.wakeWords text).1 then
        if (extract_wake_word s.wakeWords text).2 ≠ "" then
          ((StateMachine.handle_command (extract_wake_word s.wakeWords text).2
              (StateMachine.transition_to_active s).1).1,
           (StateMachine.transition_to_active s).2 ++
             (StateMachine.handle_command (extract_wake_word s.wakeWords text).2
               (StateMachine.transition_to_active s).1).2)
        else StateMachine.transition_to_active s
      else (s, [])
    | PyState.ACTIVE => StateMachine.handle_command text s

/-- `StateMachine.manual_trigger`. -/
def StateMachine.manual_trigger (s : StateMachine) : StateMachine × List Event :=
  StateMachine.transition_to_active s

/-- `StateMachine.stop`. -/
def StateMachine.stopSession (s : StateMachine) : StateMachine × List Event :=
  StateMachine.transition_to_passive s

/-- `StateMachine._active_timeout` resuming after its sleep, for task `t`:
if the task was cancelled while sleeping (or already ran, or was never
created) the body is suppressed — `asyncio.CancelledError` is caught and
ignored; otherwise it emits the Error event and returns to PASSIVE. -/
def fireTimer (t : Nat) (s : StateMachine) : StateMachine × List Event :=
  if t ∈ s.cancelledIds ∨ t ∈ s.firedIds ∨ s.nextId ≤ t then (s, [])
  else
    ((StateMachine.transition_to_passive { s with firedIds := t :: s.firedIds }).1,
     Event.Error "No command received after wake word" ::
       (StateMachine.transition_to_passive { s with firedIds := t :: s.firedIds }).2)

/-- One scheduled event-loop action: a transcription arriving, a timeout
task resuming, a manual trigger, or an explicit stop. -/
inductive Act where
  | input (text : String) : Act
  | fire (t : Nat) : Act
  | manual : Act
  | stopReq : Act

/-- Dispatch one action. -/
def doAct : Act → StateMachine → StateMachine × List Event
  | Act.input text, s => StateMachine.process_transcription text s
  | Act.fire t, s => fireTimer t s
  | Act.manual, s => StateMachine.manual_trigger s
  | Act.stopReq, s => StateMachine.stopSession s

/-- Is an event a Command or a (timeout) Error? -/
def isCE : Event → Bool
  | Event.Command _ => true
  | Event.Error _ => true
  | _ => false

/-- Number of Command/Error events in a list. -/
def countCE (es : List Event) : Nat := (es.filter isCE).length

/-- Run actions from a state, collecting events, stopping as soon as the
machine is back in PASSIVE: the event log of (the rest of) one Active
session. -/
def runUntilPassive (s : StateMachine) : List Act → List Event
  | [] => []
  | a :: as =>
    if (doAct a s).1.state = PyState.PASSIVE then (doAct a s).2
    else (doAct a s).2 ++ runUntilPassive (doAct a s).1 as

/-! The server-level composition, from server.py: `process_audio_chunk`
feeds a completed utterance to the transcriber and hands the text to
`state_machine.process_transcription`; the four callbacks only send
WebSocket messages.  Nothing in this pipeline (nor anywhere else in the
repository) calls `VADDetector.set_mode`, so handling a transcription
leaves the detector untouched. -/

/-- The two session-state components owned by `VoiceServer`. -/
structure ServerState where
  machine : StateMachine
  vad : VADDetector
deriving DecidableEq

/-- Server state after `VoiceServer.run` initialization. -/
def serverInit : ServerState := { machine := smInit, vad := vadInit }

/-- Handling of one transcribed text by the server: exactly
`await self.state_machine.process_transcription(text)`; no callback and no
state-machine method touches the detector. -/
def serverProcessTranscription (text : String) (st : ServerState) :
    ServerState × List Event :=
  ({ st with machine := (StateMachine.process_transcription text st.machine).1 },
   (StateMachine.process_transcription text st.machine).2)

/-! Concrete instances used by witnesses. -/

/-- A concrete stand-in for the external classifier: a chunk is speech iff
it is non-empty. -/
def classifyEx (f : List Int) : Bool := ! f.isEmpty

/-- Detector state reached by three speech chunks followed by eight silence
chunks: confirmed speech with a silence run of 8 accumulated. -/
def vadC6 : VADDetector :=
  runTrace classifyEx [[1], [1], [1], [], [], [], [], [], [], [], []]

/-- An unconfirmed state whose buffer exceeds min_speech_frames (not
reachable; exercises the raw discard branch). -/
def vadC5 : VADDetector :=
  { speech_started := false, speech_frames := [[1], [1], [1], [1]],
    silence_frames := 0, min_silence_frames := passive_silence_frames }

/-- A confirmed state with a silence run of 10, currently in passive mode. -/
def vadC7 : VADDetector :=
  { speech_started := true, speech_frames := [[1]], silence_frames := 10,
    min_silence_frames := passive_silence_frames }

/-- `vadC7` after switching to active mode. -/
def vadC7active : VADDetector :=
  { speech_started := true, speech_frames := [[1]], silence_frames := 10,
    min_silence_frames := active_silence_frames }

/-- A confirmed state one frame below the buffer cap. -/
def vadC2 : VADDetector :=
  { speech_started := true, speech_frames := List.replicate 936 [1],
    silence_frames := 0, min_silence_frames := passive_silence_frames }

/-- A machine in ACTIVE whose timeout task 3 has been cancelled. -/
def smC4 : StateMachine :=
  { state := PyState.ACTIVE, active_timeout_task := none, nextId := 5,
    cancelledIds := [3], firedIds := [], wakeWords := WAKE_WORDS }

/-- A machine in ACTIVE holding a live timeout task 7. -/
def smC4live : StateMachine :=
  { state := PyState.ACTIVE, active_timeout_task := some 7, nextId := 8,
    cancelledIds := [], firedIds := [], wakeWords := WAKE_WORDS }

/-- 30.0000625 seconds of audio: one sample over the maximum duration. -/
def audioLong : List Int := List.replicate 480001 0

/-- 6.25 milliseconds of audio: far below the 0.3 s minimum. -/
def audioShort : List Int := List.replicate 100 0

/-- C3: extract_wake_word tries configured phrases longest-first, matches
case-insensitively tolerating runs of punctuation/whitespace between the
words of a phrase, and returns the remainder after the match with a leading
punctuation/whitespace run stripped, or (false, "") on no match.  With
phrases ["fox", "fox pro"] and text "hey fox pro now" the longer phrase
"fox pro" wins, giving remainder "now"; "hey fox" matches "hey, FOX please"
with remainder "please" and "hey fox" alone with remainder ""; "random
speech" yields no match. -/
theorem extract_wake_word_spec :
    extract_wake_word ["fox", "fox pro"] "hey fox pro now" = (true, "now") ∧
    extract_wake_word ["hey fox"] "hey, FOX please" = (true, "please") ∧
    extract_wake_word ["hey fox"] "hey fox" = (true, "") ∧
    extract_wake_word ["hey fox"] "random speech" = (false, "") := by
  refine ⟨?_, ?_, ?_, ?_⟩ <;> decide

/-! Invariant of the detector under all its operations. -/

theorem vadInv_reset (classify : List Int → Bool) (s : VADDetector) :
    vadInv classify s.reset := by
  refine ⟨fun _ => ⟨fun f hf => ?_, ?_⟩, fun h => ?_⟩
  · simp [VADDetector.reset] at hf
  · show ([] : List (List Int)).length < min_speech_frames
    decide
  · simp [VADDetector.reset] at h

theorem vadInv_init (classify : List Int → Bool) : vadInv classify vadInit := by
  refine ⟨fun _ => ⟨fun f hf => ?_, ?_⟩, fun h => ?_⟩
  · simp [vadInit] at hf
  · show ([] : List (List Int)).length < min_speech_frames
    decide
  · simp [vadInit] at h

/-! Branch-shape equations for process_chunk. -/

theorem process_speech_cap (classify : List Int → Bool) (s : VADDetector)
    (c : List Int) (hc : classify c = true)
    (hcap : MAX_AUDIO_BUFFER_FRAMES ≤ (s.speech_frames ++ [c]).length) :
    VADDetector.process_chunk classify s c =
      (s.reset, true, some (s.speech_frames ++ [c]).flatten) := by
  unfold VADDetector.process_chunk
  rw [hc, if_pos rfl, if_pos hcap]

theorem process_speech_nocap (classify : List Int → Bool) (s : VADDetector)
    (c : List Int) (hc : classify c = true)
    (hcap : ¬ MAX_AUDIO_BUFFER_FRAMES ≤ (s.speech_frames ++ [c]).length) :
    VADDetector.process_chunk classify s c =
      ({ s with
          speech_started :=
            s.speech_started ||
              decide (min_speech_frames ≤ (s.speech_frames ++ [c]).length),
          speech_frames := s.speech_frames ++ [c], silence_frames := 0 },
       true, none) := by
  unfold VADDetector.process_chunk
  rw [hc, if_pos rfl, if_neg hcap]

theorem process_silence_emit (classify : List Int → Bool) (s : VADDetector)
    (c : List Int) (hc : classify c = false) (hsp : s.speech_started = true)
    (hthr : s.min_silence_frames ≤ s.silence_frames + 1) :
    VADDetector.process_chunk classify s c =
      (s.reset, false, some (s.speech_frames ++ [c]).flatten) := by
  unfold VADDetector.process_chunk
  rw [hc, if_neg (by simp), hsp, if_pos rfl, if_pos hthr]

theorem process_silence_noemit (classify : List Int → Bool) (s : VADDetector)
    (c : List Int) (hc : classify c = false) (hsp : s.speech_started = true)
    (hthr : ¬ s.min_silence_frames ≤ s.silence_frames + 1) :
    VADDetector.process_chunk classify s c =
      ({ s with speech_frames := s.speech_frames ++ [c],
                silence_frames := s.silence_frames + 1 }, false, none) := by
  unfold VADDetector.process_chunk
  rw [hc, if_neg (by simp), hsp, if_pos rfl, if_neg hthr]

theorem process_silence_discard (classify : List Int → Bool) (s : VADDetector)
    (c : List Int) (hc : classify c = false) (hsp : s.speech_started = false)
    (hbig : min_speech_frames < s.speech_frames.length) :
    VADDetector.process_chunk classify s c =
      ({ s with speech_frames := [] }, false, none) := by
  unfold VADDetector.process_chunk
  rw [hc, if_neg (by simp), hsp, if_neg (by simp), if_pos hbig]

theorem process_silence_idle (classify : List Int → Bool) (s : VADDetector)
    (c : List Int) (hc : classify c = false) (hsp : s.speech_started = false)
    (hbig : ¬ min_speech_frames < s.speech_frames.length) :
    VADDetector.process_chunk classify s c = (s, false, none) := by
  unfold VADDetector.process_chunk
  rw [hc, if_neg (by simp), hsp, if_neg (by simp), if_neg hbig]

theorem filter_length_append_le (classify : List Int → Bool)
    (l : List (List Int)) (c : List Int) :
    (l.filter classify).length ≤ ((l ++ [c]).filter classify).length := by
  simp [List.filter_append]

theorem vadInv_process (classify : List Int → Bool) (s : VADDetector)
    (c : List Int) (h : vadInv classify s) :
    vadInv classify (VADDetector.process_chunk classify s c).1 := by
  obtain ⟨hns, hst⟩ := h
  by_cases hc : classify c = true
  · by_cases hcap : MAX_AUDIO_BUFFER_FRAMES ≤ (s.speech_frames ++ [c]).length
    · rw [process_speech_cap classify s c hc hcap]
      exact vadInv_reset classify s
    · rw [process_speech_nocap classify s c hc hcap]
      refine ⟨fun hn => ?_, fun hy => ?_⟩
      · replace hn : (s.speech_started ||
            decide (min_speech_frames ≤ (s.speech_frames ++ [c]).length)) = false := hn
        simp only [Bool.or_eq_false_iff, decide_eq_false_iff_not] at hn
        obtain ⟨hn1, hn2⟩ := hn
        obtain ⟨hall, _⟩ := hns hn1
        refine ⟨fun f hf => ?_, Nat.lt_of_not_le hn2⟩
        rcases List.mem_append.mp hf with hf' | hf'
        · exact hall f hf'
        · simp only [List.mem_singleton] at hf'
          exact hf' ▸ hc
      · replace hy : (s.speech_started ||
            decide (min_speech_frames ≤ (s.speech_frames ++ [c]).length)) = true := hy
        show min_speech_frames ≤ ((s.speech_frames ++ [c]).filter classify).length
        simp only [Bool.or_eq_true, decide_eq_true_eq] at hy
        rcases hy with hy | hy
        · exact le_trans (hst hy) (filter_length_append_le classify _ c)
        · cases hb : s.speech_started with
          | false =>
            have hall : ∀ f ∈ s.speech_frames ++ [c], classify f = true := by
              intro f hf
              rcases List.mem_append.mp hf with hf' | hf'
              · exact (hns hb).1 f hf'
              · simp only [List.mem_singleton] at hf'
                exact hf' ▸ hc
            rw [List.filter_eq_self.mpr hall]
            exact hy
          | true => exact le_trans (hst hb) (filter_length_append_le classify _ c)
  · replace hc : classify c = false := by
      cases hcv : classify c
      · rfl
      · exact absurd hcv hc
    cases hsp : s.speech_started with
    | true =>
      by_cases hthr : s.min_silence_frames ≤ s.silence_frames + 1
      · rw [process_silence_emit classify s c hc hsp hthr]
        exact vadInv_reset classify s
      · rw [process_silence_noemit classify s c hc hsp hthr]
        refine ⟨fun hn => ?_, fun _ => ?_⟩
        · exact absurd (hsp ▸ hn) (by simp)
        · show min_speech_frames ≤ ((s.speech_frames ++ [c]).filter classify).length
          exact le_trans (hst hsp) (filter_length_append_le classify _ c)
    | false =>
      by_cases hbig : min_speech_frames < s.speech_frames.length
      · rw [process_silence_discard classify s c hc hsp hbig]
        refine ⟨fun _ => ⟨fun f hf => ?_, ?_⟩, fun hy => ?_⟩
        · simp at hf
        · show ([] : List (List Int)).length < min_speech_frames
          decide
        · exact absurd (hsp ▸ hy) (by simp)
      · rw [process_silence_idle classify s c hc hsp hbig]
        exact ⟨hns, hst⟩

theorem vadInv_mode (classify : List Int → Bool) (s s' : VADDetector)
    (m : String) (hm : VADDetector.set_mode m s = Except.ok s')
    (h : vadInv classify s) : vadInv classify s' := by
  unfold VADDetector.set_mode at hm
  split_ifs at hm
  · injection hm with h'
    subst h'
    exact ⟨h.1, h.2⟩
  · injection hm with h'
    subst h'
    exact ⟨h.1, h.2⟩

theorem vadInv_force (classify : List Int → Bool) (s : VADDetector)
    (h : vadInv classify s) :
    vadInv classify (VADDetector.force_end_utterance s).1 := by
  unfold VADDetector.force_end_utterance
  by_cases hp : 0 < s.speech_frames.length
  · simpa [hp] using vadInv_reset classify s
  · simpa [hp] using h

theorem reachable_inv {classify : List Int → Bool} {s : VADDetector}
    (h : Reachable classify s) : vadInv classify s := by
  induction h with
  | init => exact vadInv_init classify
  | step s c _ ih => exact vadInv_process classify s c ih
  | mode s s' m _ hm ih => exact vadInv_mode classify s s' m hm ih
  | force s _ ih => exact vadInv_force classify s ih

theorem reachable_foldl (classify : List Int → Bool) :
    ∀ (tr : List (List Int)) (s : VADDetector), Reachable classify s →
      Reachable classify
        (tr.foldl (fun st c => (VADDetector.process_chunk classify st c).1) s) := by
  intro tr
  induction tr with
  | nil => exact fun s hs => hs
  | cons c rest ih => exact fun s hs => ih _ (Reachable.step s c hs)

theorem reachable_runTrace (classify : List Int → Bool)
    (tr : List (List Int)) : Reachable classify (runTrace classify tr) :=
  reachable_foldl classify tr vadInit Reachable.init

/-- C10: in every detector state reachable from a fresh or reset instance,
whenever speech is not yet confirmed the buffered frame list holds fewer
than min_speech_frames frames; hence the unconfirmed buffer is bounded and
the silence-branch discard condition (buffer length strictly greater than
min_speech_frames) can never hold while unconfirmed. -/
theorem unconfirmed_buffer_bounded (classify : List Int → Bool)
    (s : VADDetector) (h : Reachable classify s)
    (hns : s.speech_started = false) :
    s.speech_frames.length < min_speech_frames ∧
      ¬ min_speech_frames < s.speech_frames.length := by
  have hb := ((reachable_inv h).1 hns).2
  exact ⟨hb, by omega⟩

/-- Witness for C10 at the freshly initialized detector. -/
theorem unconfirmed_buffer_bounded_witness :
    Reachable classifyEx vadInit ∧ vadInit.speech_started = false ∧
      (vadInit.speech_frames.length < min_speech_frames ∧
        ¬ min_speech_frames < vadInit.speech_frames.length) :=
  ⟨Reachable.init, rfl,
   unconfirmed_buffer_bounded classifyEx vadInit Reachable.init rfl⟩

/-- C5 counterexample: no reachable unconfirmed detector state has its
non-empty buffer cleared by a silence frame — the discard branch demands a
buffer strictly larger than min_speech_frames, and every reachable
unconfirmed buffer is strictly smaller, so the claimed reachable discard
does not exist. -/
theorem silence_discard_never_reachable :
    ¬ ∃ (classify : List Int → Bool) (s : VADDetector) (c : List Int),
      Reachable classify s ∧ s.speech_started = false ∧ classify c = false ∧
      s.speech_frames ≠ [] ∧
      (VADDetector.process_chunk classify s c).1.speech_frames = [] := by
  rintro ⟨classify, s, c, hr, hns, hc, hne, hclr⟩
  have hlen := ((reachable_inv hr).1 hns).2
  rw [process_silence_idle classify s c hc hns (by omega)] at hclr
  exact hne hclr

/-- C5 (amended): the silence-branch discard exists in the code — for any
state (reachable or not) in which speech is unconfirmed and the buffer
exceeds min_speech_frames, a silence frame clears the buffer — but no
reachable state satisfies its guard: every reachable unconfirmed buffer
holds fewer than min_speech_frames frames, so memory during ambient
silence is bounded by the confirmation check, not by the discard. -/
theorem silence_discard_branch (classify : List Int → Bool)
    (s : VADDetector) (c : List Int) :
    (classify c = false → s.speech_started = false →
      min_speech_frames < s.speech_frames.length →
      (VADDetector.process_chunk classify s c).1.speech_frames = []) ∧
    (Reachable classify s → s.speech_started = false →
      s.speech_frames.length < min_speech_frames) := by
  constructor
  · intro hc hns hbig
    rw [process_silence_discard classify s c hc hns hbig]
  · intro hr hns
    exact ((reachable_inv hr).1 hns).2

/-- Witness for C5's amended statement: the raw discard branch clears a
4-frame unconfirmed buffer, and the fresh detector is reachable with an
unconfirmed buffer below the bound. -/
theorem silence_discard_branch_witness :
    (classifyEx [] = false ∧ vadC5.speech_started = false ∧
      min_speech_frames < vadC5.speech_frames.length ∧
      (VADDetector.process_chunk classifyEx vadC5 []).1.speech_frames = []) ∧
    (Reachable classifyEx vadInit ∧ vadInit.speech_started = false ∧
      vadInit.speech_frames.length < min_speech_frames) :=
  ⟨⟨rfl, rfl, by decide,
    (silence_discard_branch classifyEx vadC5 []).1 rfl rfl (by decide)⟩,
   ⟨Reachable.init, rfl,
    (silence_discard_branch classifyEx vadInit []).2 Reachable.init rfl⟩⟩

/-- C6: the normal silence-run path emits only from the confirmed state
(an unconfirmed silence frame never completes an utterance), confirmation
in any reachable state comes with at least min_speech_frames
speech-classified frames in the buffer, and therefore every utterance the
silence path emits contains at least min_speech_frames speech-classified
frames (and is the concatenation of the buffered frames plus the closing
silence frame). -/
theorem silence_emission_needs_confirmation (classify : List Int → Bool)
    (s : VADDetector) (c : List Int) :
    (s.speech_started = false → classify c = false →
      (VADDetector.process_chunk classify s c).2.2 = none) ∧
    (Reachable classify s → s.speech_started = true →
      min_speech_frames ≤ (s.speech_frames.filter classify).length) ∧
    (Reachable classify s → classify c = false →
      ∀ u, (VADDetector.process_chunk classify s c).2.2 = some u →
        u = (s.speech_frames ++ [c]).flatten ∧
        min_speech_frames ≤ ((s.speech_frames ++ [c]).filter classify).length) := by
  refine ⟨fun hns hc => ?_, fun hr hy => (reachable_inv hr).2 hy,
          fun hr hc u hu => ?_⟩
  · by_cases hbig : min_speech_frames < s.speech_frames.length
    · rw [process_silence_discard classify s c hc hns hbig]
    · rw [process_silence_idle classify s c hc hns hbig]
  · cases hsp : s.speech_started with
    | true =>
      by_cases hthr : s.min_silence_frames ≤ s.silence_frames + 1
      · rw [process_silence_emit classify s c hc hsp hthr] at hu
        refine ⟨((Option.some.injEq _ _).mp hu).symm, ?_⟩
        exact le_trans ((reachable_inv hr).2 hsp)
          (filter_length_append_le classify _ c)
      · rw [process_silence_noemit classify s c hc hsp hthr] at hu
        cases hu
    | false =>
      by_cases hbig : min_speech_frames < s.speech_frames.length
      · rw [process_silence_discard classify s c hc hsp hbig] at hu
        cases hu
      · rw [process_silence_idle classify s c hc hsp hbig] at hu
        cases hu

/-- Witness for C6: from the reachable state after three speech chunks and
eight silence chunks, the ninth silence chunk completes the utterance,
whose frames include the three speech-classified ones. -/
theorem silence_emission_needs_confirmation_witness :
    Reachable classifyEx vadC6 ∧ classifyEx [] = false ∧
      (VADDetector.process_chunk classifyEx vadC6 []).2.2 =
        some ([1, 1, 1] : List Int) ∧
      (([1, 1, 1] : List Int) = (vadC6.speech_frames ++ [[]]).flatten ∧
        min_speech_frames ≤
          ((vadC6.speech_frames ++ [[]]).filter classifyEx).length) :=
  ⟨reachable_runTrace classifyEx _, rfl, by decide,
   (silence_emission_needs_confirmation classifyEx vadC6 []).2.2
     (reachable_runTrace classifyEx _) rfl [1, 1, 1] (by decide)⟩

/-! Claim C2: forced emission at the buffer cap. -/

/-- C2: from any detector state whose buffer is below the cap, feeding
consecutive speech-classified frames makes process_chunk emit exactly one
completed utterance, at exactly the call on which the buffered frame count
reaches MAX_AUDIO_BUFFER_FRAMES: the emission is the concatenation of all
buffered frames, the detector is reset afterwards (mode preserved), and no
proper prefix of the run emits anything or pushes the buffer past the
cap. -/
theorem continuous_speech_cap_emission (classify : List Int → Bool) :
    ∀ (cs : List (List Int)) (s : VADDetector),
      (∀ c ∈ cs, classify c = true) →
      s.speech_frames.length < MAX_AUDIO_BUFFER_FRAMES →
      s.speech_frames.length + cs.length = MAX_AUDIO_BUFFER_FRAMES →
      (runEmits classify s cs =
        ({ speech_started := false, speech_frames := [], silence_frames := 0,
           min_silence_frames := s.min_silence_frames },
         [(s.speech_frames ++ cs).flatten]) ∧
       ∀ p, p <+: cs → p.length < cs.length →
         (runEmits classify s p).2 = [] ∧
         (runEmits classify s p).1.speech_frames = s.speech_frames ++ p) := by
  intro cs
  induction cs with
  | nil =>
    intro s h1 h2 h3
    simp only [List.length_nil, Nat.add_zero] at h3
    omega
  | cons c rest ih =>
    intro s h1 h2 h3
    have hc : classify c = true := h1 c (List.mem_cons_self c rest)
    by_cases hcap : MAX_AUDIO_BUFFER_FRAMES ≤ (s.speech_frames ++ [c]).length
    · have hrest : rest = [] := by
        refine List.eq_nil_of_length_eq_zero ?_
        simp only [List.length_append, List.length_singleton] at hcap
        simp only [List.length_cons] at h3
        omega
      subst hrest
      constructor
      · simp only [runEmits, process_speech_cap classify s c hc hcap]
        rfl
      · intro p hp hplen
        have hpnil : p = [] := by
          refine List.eq_nil_of_length_eq_zero ?_
          simp only [List.length_cons, List.length_nil] at hplen
          omega
        subst hpnil
        exact ⟨rfl, (List.append_nil s.speech_frames).symm⟩
    · have key := process_speech_nocap classify s c hc hcap
      have hlen1 : (s.speech_frames ++ [c]).length = s.speech_frames.length + 1 := by
        simp
      have ihall : ∀ c' ∈ rest, classify c' = true :=
        fun c' hm => h1 c' (List.mem_cons_of_mem c hm)
      have ihlt : (s.speech_frames ++ [c]).length < MAX_AUDIO_BUFFER_FRAMES :=
        Nat.lt_of_not_le hcap
      have ihsum : (s.speech_frames ++ [c]).length + rest.length =
          MAX_AUDIO_BUFFER_FRAMES := by
        simp only [List.length_cons] at h3
        omega
      have ihres := ih ({ s with
          speech_started :=
            s.speech_started ||
              decide (min_speech_frames ≤ (s.speech_frames ++ [c]).length),
          speech_frames := s.speech_frames ++ [c], silence_frames := 0 })
        ihall ihlt ihsum
      constructor
      · simp only [runEmits, key]
        rw [ihres.1, List.append_cons s.speech_frames c rest]
        rfl
      · intro p hp hplen
        cases p with
        | nil => exact ⟨rfl, (List.append_nil s.speech_frames).symm⟩
        | cons c' p' =>
          obtain ⟨rfl, hp'⟩ := (List.cons_prefix_cons).mp hp
          have hplen' : p'.length < rest.length := by
            simp only [List.length_cons] at hplen
            omega
          have hpref := ihres.2 p' hp' hplen'
          constructor
          · simp only [runEmits, key]
            simpa using hpref.1
          · simp only [runEmits, key]
            rw [List.append_cons s.speech_frames c' p']
            exact hpref.2

/-- Witness for C2: one frame below the cap, a single further speech frame
emits the cap-sized utterance and resets the detector. -/
theorem continuous_speech_cap_emission_witness :
    (∀ c ∈ [[(2 : Int)]], classifyEx c = true) ∧
    vadC2.speech_frames.length < MAX_AUDIO_BUFFER_FRAMES ∧
    vadC2.speech_frames.length + [[(2 : Int)]].length = MAX_AUDIO_BUFFER_FRAMES ∧
    runEmits classifyEx vadC2 [[(2 : Int)]] =
      ({ speech_started := false, speech_frames := [], silence_frames := 0,
         min_silence_frames := vadC2.min_silence_frames },
       [(vadC2.speech_frames ++ [[(2 : Int)]]).flatten]) :=
  ⟨by decide, by decide, by decide,
   (continuous_speech_cap_emission classifyEx [[(2 : Int)]] vadC2
     (by decide) (by decide) (by decide)).1⟩

/-! Claim C7: set_mode swaps the threshold for subsequent evaluations only. -/

/-- C7: set_mode only swaps which silence threshold subsequent
process_chunk calls consult — buffer, silence counter and confirmation
flag are untouched and nothing is emitted or re-evaluated at switch time —
so an accumulating silence run is judged, at each later silence frame,
against the threshold in effect at that call: the next silence frame
completes the utterance iff the incremented run reaches the currently
selected threshold. -/
theorem silence_step_emits_iff (classify : List Int → Bool) (s : VADDetector)
    (c : List Int) (hs : s.speech_started = true) (hc : classify c = false) :
    (VADDetector.process_chunk classify s c).2.2 ≠ none ↔
      s.min_silence_frames ≤ s.silence_frames + 1 := by
  by_cases hthr : s.min_silence_frames ≤ s.silence_frames + 1
  · rw [process_silence_emit classify s c hc hs hthr]
    simpa using hthr
  · rw [process_silence_noemit classify s c hc hs hthr]
    simpa using hthr

theorem set_mode_swaps_threshold_only (classify : List Int → Bool)
    (s s' : VADDetector) (m : String) (c : List Int)
    (hm : VADDetector.set_mode m s = Except.ok s')
    (hs : s.speech_started = true) (hc : classify c = false) :
    s'.speech_frames = s.speech_frames ∧
    s'.silence_frames = s.silence_frames ∧
    s'.speech_started = s.speech_started ∧
    (m = "passive" → s'.min_silence_frames = passive_silence_frames) ∧
    (m = "active" → s'.min_silence_frames = active_silence_frames) ∧
    ((VADDetector.process_chunk classify s' c).2.2 ≠ none ↔
      s'.min_silence_frames ≤ s.silence_frames + 1) := by
  unfold VADDetector.set_mode at hm
  split_ifs at hm with h1 h2
  · injection hm with h'
    have hfr : s'.speech_frames = s.speech_frames := by rw [← h']
    have hsi : s'.silence_frames = s.silence_frames := by rw [← h']
    have hsp : s'.speech_started = s.speech_started := by rw [← h']
    refine ⟨hfr, hsi, hsp, fun _ => by rw [← h'],
      fun hma => absurd (h1 ▸ hma) (by decide), ?_⟩
    rw [silence_step_emits_iff classify s' c (by rw [hsp]; exact hs) hc, hsi]
  · injection hm with h'
    have hfr : s'.speech_frames = s.speech_frames := by rw [← h']
    have hsi : s'.silence_frames = s.silence_frames := by rw [← h']
    have hsp : s'.speech_started = s.speech_started := by rw [← h']
    refine ⟨hfr, hsi, hsp, fun hmp => absurd (h2 ▸ hmp) (by decide),
      fun _ => by rw [← h'], ?_⟩
    rw [silence_step_emits_iff classify s' c (by rw [hsp]; exact hs) hc, hsi]

/-- Witness for C7: a confirmed state with a silence run of 10 (already
past the passive threshold 9) switched to active mode: the fields are
preserved, the threshold becomes the active one, and the next silence
frame does not emit because 10 + 1 has not reached the active threshold
21 — the run completes under the threshold in effect when next checked. -/
theorem set_mode_swaps_threshold_only_witness :
    VADDetector.set_mode "active" vadC7 = Except.ok vadC7active ∧
    vadC7.speech_started = true ∧ classifyEx [] = false ∧
    passive_silence_frames ≤ vadC7.silence_frames ∧
    vadC7active.speech_frames = vadC7.speech_frames ∧
    vadC7active.silence_frames = vadC7.silence_frames ∧
    vadC7active.speech_started = vadC7.speech_started ∧
    vadC7active.min_silence_frames = active_silence_frames ∧
    (VADDetector.process_chunk classifyEx vadC7active []).2.2 = none := by
  have h := set_mode_swaps_threshold_only classifyEx vadC7 vadC7active
    "active" [] rfl rfl rfl
  refine ⟨rfl, rfl, rfl, by decide, h.1, h.2.1, h.2.2.1, h.2.2.2.2.1 rfl, ?_⟩
  exact Decidable.byContradiction fun hne =>
    absurd (h.2.2.2.2.2.mp hne) (by decide)

/-! Claims C8 and C9: the transcription dispatcher's duration guards. -/

/-- C8: audio strictly longer than the configured maximum command duration
is truncated to exactly MAX_RECORDING_DURATION_S * SAMPLE_RATE samples
before being dispatched to the engine, and the truncation is reported (a
warning is logged), not silent. -/
theorem transcribe_truncates_long (audio : List Int) (active : Bool)
    (h : (MAX_RECORDING_DURATION_S : ℚ) <
      (audio.length : ℚ) / (SAMPLE_RATE : ℚ)) :
    transcribe audio active =
      (Dispatch.engine (audio.take (MAX_RECORDING_DURATION_S * SAMPLE_RATE))
        active, [LogMsg.truncated]) ∧
    (audio.take (MAX_RECORDING_DURATION_S * SAMPLE_RATE)).length =
      MAX_RECORDING_DURATION_S * SAMPLE_RATE := by
  have hsr : (0 : ℚ) < (SAMPLE_RATE : ℚ) := by norm_num [SAMPLE_RATE]
  have hN : MAX_RECORDING_DURATION_S * SAMPLE_RATE < audio.length := by
    have h' := (lt_div_iff₀ hsr).mp h
    exact_mod_cast h'
  have hshort : ¬ (audio.length : ℚ) / (SAMPLE_RATE : ℚ) < 3 / 10 := by
    push_neg
    refine le_trans ?_ (le_of_lt h)
    norm_num [MAX_RECORDING_DURATION_S]
  constructor
  · unfold transcribe
    rw [if_neg hshort, if_pos h]
  · rw [List.length_take]
    exact Nat.min_eq_left (Nat.le_of_lt hN)

/-- Witness for C8 at one sample over the 30 s maximum. -/
theorem transcribe_truncates_long_witness :
    ((MAX_RECORDING_DURATION_S : ℚ) <
      (audioLong.length : ℚ) / (SAMPLE_RATE : ℚ)) ∧
    transcribe audioLong false =
      (Dispatch.engine (audioLong.take (MAX_RECORDING_DURATION_S * SAMPLE_RATE))
        false, [LogMsg.truncated]) ∧
    (audioLong.take (MAX_RECORDING_DURATION_S * SAMPLE_RATE)).length =
      MAX_RECORDING_DURATION_S * SAMPLE_RATE := by
  have h : (MAX_RECORDING_DURATION_S : ℚ) <
      (audioLong.length : ℚ) / (SAMPLE_RATE : ℚ) := by
    norm_num [audioLong, MAX_RECORDING_DURATION_S, SAMPLE_RATE]
  exact ⟨h, transcribe_truncates_long audioLong false h⟩

/-- C9: audio strictly shorter than the 0.3 s minimum duration is rejected
— transcribe returns no result and the engine is never invoked (the
dispatch outcome is `rejected`, not `engine`). -/
theorem transcribe_rejects_short (audio : List Int) (active : Bool)
    (h : (audio.length : ℚ) / (SAMPLE_RATE : ℚ) < 3 / 10) :
    transcribe audio active = (Dispatch.rejected, [LogMsg.tooShort]) := by
  unfold transcribe
  rw [if_pos h]

/-- Witness for C9 at 100 samples (6.25 ms). -/
theorem transcribe_rejects_short_witness :
    ((audioShort.length : ℚ) / (SAMPLE_RATE : ℚ) < 3 / 10) ∧
    transcribe audioShort true = (Dispatch.rejected, [LogMsg.tooShort]) := by
  have h : (audioShort.length : ℚ) / (SAMPLE_RATE : ℚ) < 3 / 10 := by
    norm_num [audioShort, SAMPLE_RATE]
  exact ⟨h, transcribe_rejects_short audioShort true h⟩

/-! Claim C4: at most one of Command / timeout-Error per Active session. -/

theorem cancel_timeout_none (s : StateMachine)
    (hT : s.active_timeout_task = none) :
    StateMachine.cancel_timeout s = s := by
  unfold StateMachine.cancel_timeout
  rw [hT]

theorem cancel_timeout_state (s : StateMachine) :
    (StateMachine.cancel_timeout s).state = s.state := by
  unfold StateMachine.cancel_timeout
  rcases hT : s.active_timeout_task with _ | t
  · simp only [hT]
  · simp only [hT]
    split <;> rfl

theorem cancel_timeout_task (s : StateMachine) :
    (StateMachine.cancel_timeout s).active_timeout_task = none := by
  unfold StateMachine.cancel_timeout
  rcases hT : s.active_timeout_task with _ | t
  · simp only [hT]
  · simp only [hT]
    split <;> rfl

theorem cancel_timeout_idem (s : StateMachine) :
    StateMachine.cancel_timeout (StateMachine.cancel_timeout s) =
      StateMachine.cancel_timeout s :=
  cancel_timeout_none _ (cancel_timeout_task s)

theorem cancel_timeout_cancels (s : StateMachine) (t : Nat)
    (hT : s.active_timeout_task = some t) (hd : taskDone s t = false) :
    (StateMachine.cancel_timeout s).cancelledIds = t :: s.cancelledIds := by
  unfold StateMachine.cancel_timeout
  simp only [hT]
  rw [if_neg (by simp [hd])]

theorem t2p_events (s : StateMachine) :
    (StateMachine.transition_to_passive s).2 = [] := by
  unfold StateMachine.transition_to_passive
  split <;> rfl

theorem t2p_state (s : StateMachine) :
    (StateMachine.transition_to_passive s).1.state = PyState.PASSIVE := by
  unfold StateMachine.transition_to_passive
  by_cases hp : s.state = PyState.PASSIVE
  · rw [if_pos hp]
    exact hp
  · rw [if_neg hp]
    show (StateMachine.cancel_timeout
      { s with state := PyState.PASSIVE }).state = PyState.PASSIVE
    rw [cancel_timeout_state]

theorem t2p_cancelledIds (s : StateMachine)
    (h : s.active_timeout_task = none) :
    (StateMachine.transition_to_passive s).1.cancelledIds = s.cancelledIds := by
  unfold StateMachine.transition_to_passive
  by_cases hp : s.state = PyState.PASSIVE
  · rw [if_pos hp]
  · rw [if_neg hp]
    show (StateMachine.cancel_timeout
      { s with state := PyState.PASSIVE }).cancelledIds = s.cancelledIds
    rw [cancel_timeout_none _ (by exact h)]

theorem handle_command_events (txt : String) (s : StateMachine) :
    (StateMachine.handle_command txt s).2 = [Event.Command txt] := by
  unfold StateMachine.handle_command
  rw [t2p_events]

theorem handle_command_state (txt : String) (s : StateMachine) :
    (StateMachine.handle_command txt s).1.state = PyState.PASSIVE := by
  unfold StateMachine.handle_command
  exact t2p_state _

theorem t2a_countCE (s : StateMachine) :
    countCE (StateMachine.transition_to_active s).2 = 0 := by
  unfold StateMachine.transition_to_active
  split <;> rfl

theorem countCE_append (a b : List Event) :
    countCE (a ++ b) = countCE a + countCE b := by
  simp [countCE, List.filter_append]

theorem doAct_step (a : Act) (s : StateMachine) :
    countCE (doAct a s).2 ≤ 1 ∧
      (countCE (doAct a s).2 ≠ 0 → (doAct a s).1.state = PyState.PASSIVE) := by
  cases a with
  | input text =>
    simp only [doAct]
    unfold StateMachine.process_transcription
    by_cases ht : text = ""
    · rw [if_pos ht]
      exact ⟨Nat.zero_le 1, fun h => absurd rfl h⟩
    · rw [if_neg ht]
      cases hst : s.state with
      | PASSIVE =>
        simp only [hst]
        by_cases hw : (extract_wake_word s.wakeWords text).1 = true
        · rw [if_pos hw]
          by_cases hr : (extract_wake_word s.wakeWords text).2 ≠ ""
          · rw [if_pos hr]
            dsimp only
            constructor
            · rw [countCE_append, t2a_countCE, handle_command_events]
              simp [countCE, isCE]
            · intro _
              exact handle_command_state _ _
          · rw [if_neg hr]
            constructor
            · rw [t2a_countCE]
              exact Nat.zero_le 1
            · intro h
              exact absurd (t2a_countCE s) h
        · rw [if_neg hw]
          exact ⟨Nat.zero_le 1, fun h => absurd rfl h⟩
      | ACTIVE =>
        simp only [hst]
        constructor
        · rw [handle_command_events]
          simp [countCE, isCE]
        · intro _
          exact handle_command_state _ _
  | fire t =>
    simp only [doAct]
    unfold fireTimer
    by_cases hcond : t ∈ s.cancelledIds ∨ t ∈ s.firedIds ∨ s.nextId ≤ t
    · rw [if_pos hcond]
      exact ⟨Nat.zero_le 1, fun h => absurd rfl h⟩
    · rw [if_neg hcond]
      dsimp only
      constructor
      · rw [t2p_events]
        simp [countCE, isCE]
      · intro _
        exact t2p_state _
  | manual =>
    simp only [doAct]
    unfold StateMachine.manual_trigger
    constructor
    · rw [t2a_countCE]
      exact Nat.zero_le 1
    · intro h
      exact absurd (t2a_countCE s) h
  | stopReq =>
    simp only [doAct]
    unfold StateMachine.stopSession
    constructor
    · rw [t2p_events]
      exact Nat.zero_le 1
    · intro _
      exact t2p_state _

theorem runUntilPassive_le_one :
    ∀ (acts : List Act) (s : StateMachine),
      countCE (runUntilPassive s acts) ≤ 1 := by
  intro acts
  induction acts with
  | nil =>
    intro s
    exact Nat.zero_le 1
  | cons a as ih =>
    intro s
    unfold runUntilPassive
    by_cases hp : (doAct a s).1.state = PyState.PASSIVE
    · rw [if_pos hp]
      exact (doAct_step a s).1
    · rw [if_neg hp]
      rw [countCE_append]
      have h0 : countCE (doAct a s).2 = 0 := by
        by_contra hne
        exact hp ((doAct_step a s).2 hne)
      rw [h0]
      simpa using ih (doAct a s).1

/-- C4: within any single Active session — from the state a session starts
in until the machine first returns to PASSIVE — at most one of the events
Command and timeout-Error is emitted, never both (every Command/Error
emission immediately returns the machine to PASSIVE, ending the session);
a timeout task whose handle was cancelled, or which already ran, firing is
a no-op; cancelling twice is a safe no-op; and handling a command records
the cancellation of the live pending timer (the cancellation precedes the
command callback in _handle_command). -/
theorem active_session_single_outcome :
    (∀ (s : StateMachine) (acts : List Act),
      countCE (runUntilPassive s acts) ≤ 1) ∧
    (∀ (s : StateMachine) (t : Nat),
      t ∈ s.cancelledIds ∨ t ∈ s.firedIds → fireTimer t s = (s, [])) ∧
    (∀ s : StateMachine,
      StateMachine.cancel_timeout (StateMachine.cancel_timeout s) =
        StateMachine.cancel_timeout s) ∧
    (∀ (s : StateMachine) (t : Nat) (text : String),
      s.active_timeout_task = some t → taskDone s t = false →
      t ∈ (StateMachine.handle_command text s).1.cancelledIds) := by
  refine ⟨fun s acts => runUntilPassive_le_one acts s, ?_, cancel_timeout_idem, ?_⟩
  · intro s t hmem
    unfold fireTimer
    rcases hmem with hmem | hmem
    · rw [if_pos (Or.inl hmem)]
    · rw [if_pos (Or.inr (Or.inl hmem))]
  · intro s t text hT hd
    have h1 := cancel_timeout_cancels s t hT hd
    have h2 := cancel_timeout_task s
    unfold StateMachine.handle_command
    show t ∈ (StateMachine.transition_to_passive
      (StateMachine.cancel_timeout s)).1.cancelledIds
    rw [t2p_cancelledIds _ h2, h1]
    exact List.mem_cons_self t s.cancelledIds

/-- Witness for C4: a two-step session (manual trigger, then a command) has
at most one Command/Error; firing the cancelled task 3 is a no-op; double
cancellation is idempotent on the initial machine; and handling a command
on a machine holding live task 7 records 7 as cancelled. -/
theorem active_session_single_outcome_witness :
    countCE (runUntilPassive smInit [Act.manual, Act.input "group my tabs"]) ≤ 1 ∧
    (3 ∈ smC4.cancelledIds ∨ 3 ∈ smC4.firedIds) ∧
    fireTimer 3 smC4 = (smC4, []) ∧
    StateMachine.cancel_timeout (StateMachine.cancel_timeout smInit) =
      StateMachine.cancel_timeout smInit ∧
    smC4live.active_timeout_task = some 7 ∧
    taskDone smC4live 7 = false ∧
    7 ∈ (StateMachine.handle_command "group my tabs" smC4live).1.cancelledIds :=
  ⟨active_session_single_outcome.1 smInit [Act.manual, Act.input "group my tabs"],
   Or.inl (by decide),
   active_session_single_outcome.2.1 smC4 3 (Or.inl (by decide)),
   active_session_single_outcome.2.2.1 smInit,
   rfl, rfl,
   active_session_single_outcome.2.2.2 smC4live 7 "group my tabs" rfl rfl⟩

/-! Claim C1: the claimed coupling between ConversationState and the
segmenter's silence mode. -/

/-- C1 (refuted; code bug): processing the wake phrase from the freshly
initialized server drives the conversation state machine to ACTIVE, yet
the segmenter's silence threshold is left at the passive value: no call to
VADDetector.set_mode exists anywhere in the repository's orchestration
(neither the state-machine transitions nor the server callbacks touch the
detector), so the claimed invariant "state Active iff long-silence mode"
is already false after the first transition. -/
theorem mode_state_coupling_missing :
    (serverProcessTranscription "hey fox" serverInit).1.machine.state =
      PyState.ACTIVE ∧
    (serverProcessTranscription "hey fox" serverInit).1.vad.min_silence_frames =
      passive_silence_frames ∧
    passive_silence_frames ≠ active_silence_frames := by
  exact ⟨by decide, by decide, by decide⟩
